import Mathlib

/-!
Verification of the ThreadIdentity module of the NorthLib repository.  The
repository ships only the declaration header `src/LowLevel/thread.h`; the
behaviour of the four declared functions is therefore modelled from the
specification (see the doc comments starting with `Modelled from the spec:`),
while the declared C surface itself is transcribed directly from the header.
-/

namespace ThreadIdentity

/-- ThreadHandle is the opaque platform thread handle (`pthread_t`), modelled
as a natural number since the module only observes handles, never creates or
destroys them. -/
abbrev ThreadHandle := Nat

/-- ThreadNumericId is the `unsigned long` projection of a thread handle. -/
abbrev ThreadNumericId := Nat

/-- Number of distinct values of a 64-bit `unsigned long`. -/
def ulongCard : Nat := 2 ^ 64

/-- Modelled from the spec: the implementation of `thread_id` is absent from
the sources (only its declaration in `thread.h` is present); the spec
describes it as a deterministic, pure, total projection of a thread handle to
an unsigned integer, so the model reduces the handle into the `unsigned long`
range. -/
def thread_id (h : ThreadHandle) : ThreadNumericId := h % ulongCard

/-- Modelled from the spec: the process-wide MainThreadRecord, a single slot
holding the handle captured by the one-time startup step; `none` is the
Uninitialized state of the spec. -/
structure ThreadState where
  mainThreadRecord : Option ThreadHandle
deriving DecidableEq

/-- Error taxonomy of the spec for main-thread queries made before the
one-time capture has run. -/
inductive ThreadError where
  | uninitializedError
deriving DecidableEq

/-- Modelled from the spec: the internal one-time capture step, absent from
the sources; the first call stores the handle of the calling thread into the
MainThreadRecord, and any later call leaves the record unchanged (the spec
allows a no-op or a deterministic failure, the model takes the no-op). -/
def captureMain (caller : ThreadHandle) (s : ThreadState) : ThreadState :=
  match s.mainThreadRecord with
  | none => ⟨some caller⟩
  | some h => ⟨some h⟩

/-- Modelled from the spec: `thread_main` returns the recorded main-thread
handle and fails with `UninitializedError` before the capture has run. -/
def thread_main (s : ThreadState) : Except ThreadError ThreadHandle :=
  match s.mainThreadRecord with
  | none => .error .uninitializedError
  | some h => .ok h

/-- Modelled from the spec: `thread_main_id` returns the numeric identifier
of the recorded main thread and fails with `UninitializedError` before the
capture has run. -/
def thread_main_id (s : ThreadState) : Except ThreadError ThreadNumericId :=
  match s.mainThreadRecord with
  | none => .error .uninitializedError
  | some h => .ok (thread_id h)

/-- Modelled from the spec: `thread_current` returns the handle of the
invoking thread; it always succeeds and is a pure observation of live
platform state, performing no caching and no write. -/
def thread_current (caller : ThreadHandle) (s : ThreadState) :
    ThreadHandle × ThreadState :=
  (caller, s)

/-- State-passing form of `thread_main` (a pure read of the record). -/
def thread_mainOp (s : ThreadState) :
    Except ThreadError ThreadHandle × ThreadState :=
  (thread_main s, s)

/-- State-passing form of `thread_main_id` (a pure read of the record). -/
def thread_main_idOp (s : ThreadState) :
    Except ThreadError ThreadNumericId × ThreadState :=
  (thread_main_id s, s)

/-- State-passing form of `thread_id` (a pure conversion, no state access). -/
def thread_idOp (h : ThreadHandle) (s : ThreadState) :
    ThreadNumericId × ThreadState :=
  (thread_id h, s)

/-- Operations of the module, tagged with the invoking thread where relevant;
traces of these operations give the interleaving semantics used for the
write-once and race properties. -/
inductive ThreadOp where
  | capture (caller : ThreadHandle)
  | queryMain
  | queryMainId
  | queryId (h : ThreadHandle)
  | queryCurrent (caller : ThreadHandle)
deriving DecidableEq

/-- State effect of one operation: only the capture step may write. -/
def stepState (s : ThreadState) : ThreadOp → ThreadState
  | .capture c => captureMain c s
  | .queryMain => (thread_mainOp s).2
  | .queryMainId => (thread_main_idOp s).2
  | .queryId h => (thread_idOp h s).2
  | .queryCurrent c => (thread_current c s).2

/-- Final state after an interleaved trace of operations. -/
def runTrace (s : ThreadState) (ops : List ThreadOp) : ThreadState :=
  ops.foldl stepState s

/-- First thread whose capture attempt occurs in a trace. -/
def firstCapturer : List ThreadOp → Option ThreadHandle
  | [] => none
  | .capture c :: _ => some c
  | _ :: rest => firstCapturer rest

/-- Capture attempts of a trace that actually write the record. -/
def successfulWriters (s : ThreadState) : List ThreadOp → List ThreadHandle
  | [] => []
  | .capture c :: rest =>
      (if s.mainThreadRecord = none then [c] else []) ++
        successfulWriters (stepState s (.capture c)) rest
  | op :: rest => successfulWriters (stepState s op) rest

/-- Results of the `thread_main` reads occurring along a trace. -/
def mainReads (s : ThreadState) :
    List ThreadOp → List (Except ThreadError ThreadHandle)
  | [] => []
  | .queryMain :: rest => thread_main s :: mainReads (stepState s .queryMain) rest
  | op :: rest => mainReads (stepState s op) rest

/-- C value types occurring in `thread.h`. -/
inductive CType where
  | pthread_t
  | unsigned_long
deriving DecidableEq

/-- One C function declaration: name, by-value return type and by-value
argument types. -/
structure CDecl where
  name : String
  ret : CType
  args : List CType
deriving DecidableEq

/-- Declarations of `src/LowLevel/thread.h`, lines 16 to 19, transcribed in
order. -/
def threadHeaderDecls : List CDecl :=
  [⟨"thread_main", .pthread_t, []⟩,
   ⟨"thread_main_id", .unsigned_long, []⟩,
   ⟨"thread_id", .unsigned_long, [.pthread_t]⟩,
   ⟨"thread_current", .pthread_t, []⟩]

/-- State effect of calling a declared header function, with `arg` standing
for the invoking thread or for the handle argument as appropriate. -/
def stepStateOfDecl (d : CDecl) (arg : ThreadHandle) (s : ThreadState) :
    ThreadState :=
  if d.name = "thread_main" then (thread_mainOp s).2
  else if d.name = "thread_main_id" then (thread_main_idOp s).2
  else if d.name = "thread_id" then (thread_idOp arg s).2
  else if d.name = "thread_current" then (thread_current arg s).2
  else s

/-- Helper: no operation changes a record that is already set. -/
theorem stepState_of_some (h : ThreadHandle) (op : ThreadOp) :
    stepState ⟨some h⟩ op = ⟨some h⟩ := by
  cases op <;> rfl

/-- Helper: a whole trace leaves a record that is already set unchanged. -/
theorem runTrace_of_some (h : ThreadHandle) (ops : List ThreadOp) :
    runTrace ⟨some h⟩ ops = ⟨some h⟩ := by
  induction ops with
  | nil => rfl
  | cons op rest ih =>
      show runTrace (stepState ⟨some h⟩ op) rest = ⟨some h⟩
      rw [stepState_of_some]
      exact ih

/-- Helper: once the record is set, no capture attempt ever writes again. -/
theorem successfulWriters_of_some (h : ThreadHandle) (ops : List ThreadOp) :
    successfulWriters ⟨some h⟩ ops = [] := by
  induction ops with
  | nil => rfl
  | cons op rest ih =>
      cases op <;> simp [successfulWriters, stepState_of_some, ih]

/-- Helper: once the record is set, every later `thread_main` read along any
trace observes exactly the stored handle. -/
theorem mainReads_of_some (h : ThreadHandle) (ops : List ThreadOp) :
    ∀ r ∈ mainReads ⟨some h⟩ ops, r = .ok h := by
  induction ops with
  | nil => intro r hr; cases hr
  | cons op rest ih =>
      cases op <;> simp [mainReads, stepState_of_some, thread_main] <;> exact ih

/-- Helper: a trace whose first capturer is `a`, run from the uninitialized
state, ends with `a` stored and writes exactly once, by `a`. -/
theorem runTrace_of_none (ops : List ThreadOp) (a : ThreadHandle)
    (h : firstCapturer ops = some a) :
    runTrace ⟨none⟩ ops = ⟨some a⟩ ∧ successfulWriters ⟨none⟩ ops = [a] := by
  induction ops with
  | nil => cases h
  | cons op rest ih =>
      cases op with
      | capture c =>
          have hc : c = a := by
            simpa [firstCapturer] using h
          subst hc
          refine ⟨?_, ?_⟩
          · show runTrace (stepState ⟨none⟩ (.capture c)) rest = _
            exact runTrace_of_some c rest
          · simp [successfulWriters, stepState, captureMain,
              successfulWriters_of_some]
      | queryMain =>
          have h1 : firstCapturer rest = some a := by
            simpa [firstCapturer] using h
          exact ⟨(ih h1).1, by simpa [successfulWriters, stepState,
            thread_mainOp] using (ih h1).2⟩
      | queryMainId =>
          have h1 : firstCapturer rest = some a := by
            simpa [firstCapturer] using h
          exact ⟨(ih h1).1, by simpa [successfulWriters, stepState,
            thread_main_idOp] using (ih h1).2⟩
      | queryId x =>
          have h1 : firstCapturer rest = some a := by
            simpa [firstCapturer] using h
          exact ⟨(ih h1).1, by simpa [successfulWriters, stepState,
            thread_idOp] using (ih h1).2⟩
      | queryCurrent c =>
          have h1 : firstCapturer rest = some a := by
            simpa [firstCapturer] using h
          exact ⟨(ih h1).1, by simpa [successfulWriters, stepState,
            thread_current] using (ih h1).2⟩

/-- Helper: successful writers of a concatenated trace split at the junction
state. -/
theorem successfulWriters_append (xs ys : List ThreadOp) (s : ThreadState) :
    successfulWriters s (xs ++ ys) =
      successfulWriters s xs ++ successfulWriters (runTrace s xs) ys := by
  induction xs generalizing s with
  | nil => rfl
  | cons op rest ih =>
      cases op <;> simp [successfulWriters, runTrace, ih]

/-- C1: before the one-time capture has run, both `thread_main` and
`thread_main_id` fail with the uninitialized error; neither ever returns a
stale or zero value silently. -/
theorem uninit_queries_fail (s : ThreadState)
    (h : s.mainThreadRecord = none) :
    thread_main s = .error .uninitializedError ∧
    thread_main_id s = .error .uninitializedError := by
  obtain ⟨r⟩ := s
  simp only at h
  subst h
  exact ⟨rfl, rfl⟩

/-- Witness for C1 at the concrete uninitialized state. -/
theorem uninit_queries_fail_witness :
    thread_main ⟨none⟩ = .error .uninitializedError ∧
    thread_main_id ⟨none⟩ = .error .uninitializedError :=
  uninit_queries_fail ⟨none⟩ rfl

/-- C2: whenever `thread_main` succeeds, `thread_main_id` returns exactly the
numeric identifier of the returned handle, and the two queries fail in
exactly the same states with the same error. -/
theorem main_id_agrees (s : ThreadState) :
    (∀ h : ThreadHandle,
      thread_main s = .ok h → thread_main_id s = .ok (thread_id h)) ∧
    (∀ e : ThreadError,
      thread_main s = .error e ↔ thread_main_id s = .error e) := by
  obtain ⟨r⟩ := s
  cases r with
  | none => exact ⟨fun h hh => (nomatch hh), fun e => Iff.rfl⟩
  | some a =>
      refine ⟨fun h hh => ?_, fun e => ?_⟩
      · have : a = h := by simpa [thread_main] using hh
        subst this
        rfl
      · simp [thread_main, thread_main_id]

/-- Witness for C2 at a concrete initialized state. -/
theorem main_id_agrees_witness :
    thread_main_id ⟨some 7⟩ = .ok (thread_id 7) :=
  (main_id_agrees ⟨some 7⟩).1 7 rfl

/-- C3: once the one-time capture has stored a handle into the
MainThreadRecord, no subsequent operation of the module — main-thread
queries, id conversion, current-thread lookup or repeated capture — ever
changes the stored handle. -/
theorem mainThreadRecord_write_once (h : ThreadHandle) (s : ThreadState)
    (hset : s.mainThreadRecord = some h) (ops : List ThreadOp) :
    (runTrace s ops).mainThreadRecord = some h := by
  obtain ⟨r⟩ := s
  simp only at hset
  subst hset
  rw [runTrace_of_some]

/-- Witness for C3 on a concrete trace containing every kind of operation. -/
theorem mainThreadRecord_write_once_witness :
    (runTrace ⟨some 5⟩
      [.capture 9, .queryMain, .queryMainId, .queryId 3,
        .queryCurrent 2]).mainThreadRecord = some 5 :=
  mainThreadRecord_write_once 5 ⟨some 5⟩ rfl
    [.capture 9, .queryMain, .queryMainId, .queryId 3, .queryCurrent 2]

/-- C4: `thread_id` is a deterministic pure conversion: two calls with the
same handle, from any two states, return the same numeric identifier; the
call leaves the state untouched, and its result type has no error case, so it
never fails for a valid handle. -/
theorem thread_id_deterministic (h : ThreadHandle) (s t : ThreadState) :
    (thread_idOp h s).1 = (thread_idOp h t).1 ∧
    (thread_idOp h s).2 = s ∧
    (thread_idOp h ((thread_idOp h s).2)).1 = (thread_idOp h s).1 :=
  ⟨rfl, rfl, rfl⟩

/-- C5: after the startup thread `a` has performed the one-time capture,
`thread_main` returns, at any later point of any trace, a handle equal to the
`thread_current` value of `a`, and `thread_main_id` returns exactly the
`thread_id` of that handle. -/
theorem main_after_capture (a : ThreadHandle) (s : ThreadState)
    (h : s.mainThreadRecord = none) (ops : List ThreadOp) :
    thread_main (runTrace (captureMain a s) ops) =
      .ok ((thread_current a s).1) ∧
    thread_main_id (runTrace (captureMain a s) ops) =
      .ok (thread_id ((thread_current a s).1)) := by
  obtain ⟨r⟩ := s
  simp only at h
  subst h
  show thread_main (runTrace ⟨some a⟩ ops) = _ ∧
    thread_main_id (runTrace ⟨some a⟩ ops) = _
  rw [runTrace_of_some]
  exact ⟨rfl, rfl⟩

/-- Witness for C5 on a concrete capture followed by a concrete trace. -/
theorem main_after_capture_witness :
    thread_main (runTrace (captureMain 4 ⟨none⟩) [.queryMain, .capture 8]) =
      .ok ((thread_current 4 ⟨none⟩).1) :=
  (main_after_capture 4 ⟨none⟩ rfl [.queryMain, .capture 8]).1

/-- C6: re-invocation of the capture step after a first invocation is a no-op
that leaves the stored MainThreadRecord unchanged, whoever the later caller
is and whatever the starting state was. -/
theorem capture_idempotent (a c : ThreadHandle) (s : ThreadState) :
    captureMain c (captureMain a s) = captureMain a s := by
  obtain ⟨r⟩ := s
  cases r <;> rfl

/-- C7: in any interleaved trace started in the uninitialized state, exactly
one capture attempt — the first one — writes the MainThreadRecord, and every
`thread_main` read performed after that capture observes the one fully-formed
stored handle. -/
theorem one_writer_consistent_reads (pre post : List ThreadOp)
    (a : ThreadHandle) (h : firstCapturer pre = some a) :
    successfulWriters ⟨none⟩ (pre ++ post) = [a] ∧
    ∀ r ∈ mainReads (runTrace ⟨none⟩ pre) post, r = .ok a := by
  obtain ⟨h1, h2⟩ := runTrace_of_none pre a h
  refine ⟨?_, ?_⟩
  · rw [successfulWriters_append, h1, h2, successfulWriters_of_some]
    simp
  · rw [h1]
    exact mainReads_of_some a post

/-- Witness for C7 on a concrete racing trace: two capture attempts, one
writer, and later reads that all observe the first capturer. -/
theorem one_writer_consistent_reads_witness :
    successfulWriters ⟨none⟩
      ([.queryMain, .capture 2, .capture 3] ++ [.queryMain, .queryMain]) =
        [2] ∧
    ∀ r ∈ mainReads (runTrace ⟨none⟩ [.queryMain, .capture 2, .capture 3])
      [.queryMain, .queryMain], r = .ok 2 :=
  one_writer_consistent_reads [.queryMain, .capture 2, .capture 3]
    [.queryMain, .queryMain] 2 rfl

/-- C8: `thread_current` always succeeds — in every state, including the
uninitialized one — returning the handle of the invoking thread, and it
leaves the module state, in particular the MainThreadRecord, unchanged. -/
theorem current_total_pure (caller : ThreadHandle) (s : ThreadState) :
    (thread_current caller s).1 = caller ∧
    (thread_current caller s).2 = s ∧
    ((thread_current caller s).2).mainThreadRecord = s.mainThreadRecord :=
  ⟨rfl, rfl, rfl⟩

/-- C9: the declared C signatures offer no error channel for the
uninitialized case: `thread_main` returns a bare `pthread_t` by value with no
arguments, `thread_main_id` a bare `unsigned long` by value with no
arguments, and every value of the numeric-id range is already a possible
result of `thread_id`, so no return value is left over to denote a distinct
uninitialized error. -/
theorem no_error_channel (e : ThreadNumericId) (he : e < ulongCard) :
    threadHeaderDecls.get? 0 = some ⟨"thread_main", .pthread_t, []⟩ ∧
    threadHeaderDecls.get? 1 = some ⟨"thread_main_id", .unsigned_long, []⟩ ∧
    ∃ h : ThreadHandle, thread_id h = e :=
  ⟨rfl, rfl, ⟨e, Nat.mod_eq_of_lt he⟩⟩

/-- Witness for C9 at a concrete candidate error value. -/
theorem no_error_channel_witness :
    (0 : ThreadNumericId) < ulongCard ∧ ∃ h : ThreadHandle, thread_id h = 0 :=
  ⟨by norm_num [ulongCard], (no_error_channel 0 (by norm_num [ulongCard])).2.2⟩

/-- C10: the public header declares exactly the four query functions, in this
order, and the state effect of every declared function leaves the
state — hence the MainThreadRecord — unchanged: no declared operation is a
capture step or can mutate the record. -/
theorem header_is_query_only (d : CDecl) (hd : d ∈ threadHeaderDecls)
    (arg : ThreadHandle) (s : ThreadState) :
    threadHeaderDecls.map CDecl.name =
      ["thread_main", "thread_main_id", "thread_id", "thread_current"] ∧
    stepStateOfDecl d arg s = s := by
  refine ⟨rfl, ?_⟩
  unfold stepStateOfDecl
  split_ifs <;> rfl

/-- Witness for C10 at a concrete declared function, argument and state. -/
theorem header_is_query_only_witness :
    stepStateOfDecl ⟨"thread_id", .unsigned_long, [.pthread_t]⟩ 3 ⟨none⟩ =
      ⟨none⟩ :=
  (header_is_query_only ⟨"thread_id", .unsigned_long, [.pthread_t]⟩
    (by simp [threadHeaderDecls]) 3 ⟨none⟩).2

end ThreadIdentity
